import Mathlib

/-!
Verification of the wger nutrition Ingredient model
(src/wger/nutrition/models/ingredient.py) and of the core index view
(src/wger/core/views/misc.py), as a shallow embedding in Lean.

Conventions of the embedding:
* Python Decimal values are exact rationals; integer fields are Lean Int.
* Nullable fields are Option; Python truthiness of a value (None, 0 and
  the empty string are falsy) is made explicit by the truthy functions.
* A Python function that may raise is embedded in Except; a function that
  always returns is total.
* Side effects (database writes, cache operations, outgoing mail) are
  explicit state threaded through the functions.
-/

namespace Wger

/-- Approval status of a user submitted record.  Modelled from the spec:
the status enumeration (pending / accepted / declined) is inherited from
AbstractSubmissionModel, which is outside the provided sources. -/
inductive SubmissionStatus
  | pending
  | accepted
  | declined
deriving DecidableEq

/-- Python truthiness of a nullable decimal: None and 0 are falsy. -/
def truthyQ : Option ℚ → Bool
  | none => false
  | some v => v != 0

/-- Python truthiness of a nullable integer: None and 0 are falsy. -/
def truthyI : Option Int → Bool
  | none => false
  | some v => v != 0

/-- Python truthiness of a nullable string: None and the empty string are
falsy. -/
def truthyS : Option String → Bool
  | none => false
  | some s => s != ""

/-- In-memory state of an Ingredient row: the fields of the Django model
that the embedded methods read or write.  Decimal nutrition fields are
nullable when the model declares them null=True; protein, carbohydrates,
fat and energy are non-null in the model but clean treats a missing value
as 0 through truthiness, so they are kept as Option here to express the
spec wording about absent values. -/
structure Ingredient where
  pk : Nat
  uuid : Nat
  name : String
  energy : Option Int
  protein : Option ℚ
  carbohydrates : Option ℚ
  carbohydrates_sugar : Option ℚ
  fat : Option ℚ
  fat_saturated : Option ℚ
  fibres : Option ℚ
  sodium : Option ℚ
  code : Option String
  license_author : Option String
  status : SubmissionStatus
  common_name : Option String
deriving DecidableEq

/-- ENERGY_APPROXIMATION = 15, straight from the Ingredient class body. -/
def ENERGY_APPROXIMATION : Nat := 15

/-- Modelled from the spec: per-gram energy factor for protein (4 kcal),
from the ENERGY_FACTOR table in wger.nutrition.consts, which is outside
the provided sources. -/
def ENERGY_FACTOR_protein : ℚ := 4

/-- Modelled from the spec: per-gram energy factor for carbohydrates
(4 kcal), from the ENERGY_FACTOR table outside the provided sources. -/
def ENERGY_FACTOR_carbohydrates : ℚ := 4

/-- Modelled from the spec: per-gram energy factor for fat (9 kcal), from
the ENERGY_FACTOR table outside the provided sources. -/
def ENERGY_FACTOR_fat : ℚ := 9

/-- The energy computed from the macronutrients inside Ingredient.clean:
each of protein, carbohydrates and fat contributes value times factor when
the field is truthy and 0 otherwise (None and 0 both contribute 0). -/
def Ingredient.energy_calculated (i : Ingredient) : ℚ :=
  (if truthyQ i.protein then i.protein.getD 0 * ENERGY_FACTOR_protein else 0)
    + (if truthyQ i.carbohydrates then
        i.carbohydrates.getD 0 * ENERGY_FACTOR_carbohydrates else 0)
    + (if truthyQ i.fat then i.fat.getD 0 * ENERGY_FACTOR_fat else 0)

/-- The data carried by the ValidationError message raised by
Ingredient.clean: the declared energy, the computed energy and the
tolerance percentage that the message text interpolates. -/
structure CleanError where
  energy : Int
  energy_calculated : ℚ
  energy_approx : Nat
deriving DecidableEq

/-- Ingredient.clean: compute the macronutrient energy, then, when the
energy field is truthy (present and nonzero), require the computed value
to lie strictly between energy times (1 - 15/100) and energy times
(1 + 15/100); otherwise raise a ValidationError carrying the three
numbers interpolated into its message. -/
def Ingredient.clean (i : Ingredient) : Except CleanError Unit :=
  if truthyI i.energy then
    if ¬ ((i.energy.getD 0 : ℚ) * (1 + (ENERGY_APPROXIMATION : ℚ) / 100)
            > i.energy_calculated
          ∧ i.energy_calculated
            > (i.energy.getD 0 : ℚ) * (1 - (ENERGY_APPROXIMATION : ℚ) / 100)) then
      Except.error ⟨i.energy.getD 0, i.energy_calculated, ENERGY_APPROXIMATION⟩
    else
      Except.ok ()
  else
    Except.ok ()

/-- Validation passes when clean raises no error. -/
def cleanPasses (i : Ingredient) : Bool :=
  match Ingredient.clean i with
  | Except.ok _ => true
  | Except.error _ => false

/-- A record holding only the nutrition fields that clean reads, with
neutral values everywhere else. -/
def mkRec (e : Option Int) (p c f : Option ℚ) : Ingredient :=
  { pk := 0
    uuid := 0
    name := "ingredient"
    energy := e
    protein := p
    carbohydrates := c
    carbohydrates_sugar := none
    fat := f
    fat_saturated := none
    fibres := none
    sodium := none
    code := none
    license_author := none
    status := SubmissionStatus.pending
    common_name := none }

/-- Modelled from the spec: cache_mapper.get_ingredient_key (from
wger.utils.cache, outside the provided sources) is a deterministic cache
key derived from the record id. -/
def get_ingredient_key (id : Nat) : Nat := id

/-- Read a key from the cache (the get operation of the cache interface). -/
def cacheGet {V : Type} (c : Nat → Option V) (k : Nat) : Option V := c k

/-- Delete a key from the cache (the delete operation of the cache
interface): afterwards that key reads as a miss, all others unchanged. -/
def cacheDelete {V : Type} (c : Nat → Option V) (k : Nat) : Nat → Option V :=
  fun q => if q = k then none else c q

/-- Combined state of the underlying storage and the cache, threaded
through Ingredient.save.  The storage representation is abstract (a type
parameter), since the super().save machinery is framework code. -/
structure SysState (S V : Type) where
  storage : S
  cache : Nat → Option V

/-- Ingredient.save: first delegate persistence to the underlying storage
(super().save, abstracted as the superSave argument), then delete the
cache entry at the key derived from the record id. -/
def Ingredient.save {S V : Type} (superSave : S → Ingredient → S)
    (st : SysState S V) (i : Ingredient) : SysState S V :=
  let storage := superSave st.storage i
  { storage := storage
    cache := cacheDelete st.cache (get_ingredient_key i.pk) }

/-- The parts of the Django request that set_author reads: the acting
user name, whether that user holds the nutrition.add_ingredient
permission, and the requesting host (possibly with a port). -/
structure AuthRequest where
  username : String
  has_perm_add_ingredient : Bool
  host : String

/-- The admin notification produced in the no-permission branch of
set_author: its message interpolates the submitting user name and the
ingredient name. -/
structure AdminMail where
  username : String
  ingredient_name : String
deriving DecidableEq

/-- Modelled from the spec: django mail_admins with fail_silently.  The
attempt is recorded in the outbox; when fail_silently is set a delivery
failure does not raise, so the call returns ok for every delivery
outcome. -/
def mail_admins (fail_silently : Bool) (delivery_ok : Bool)
    (outbox : List AdminMail) (m : AdminMail) :
    Except Unit (List AdminMail) :=
  if delivery_ok || fail_silently then Except.ok (outbox ++ [m])
  else Except.error ()

/-- Ingredient.set_author: with the nutrition.add_ingredient permission,
set status to accepted and, when license_author is falsy, set it to the
request host with the port stripped; without the permission, set
license_author (when falsy) to the requesting user name and send one
admin mail with fail_silently=True.  delivery_ok models whether the mail
backend would succeed; the result pairs the updated record with the list
of attempted notifications. -/
def Ingredient.set_author (req : AuthRequest) (delivery_ok : Bool)
    (i : Ingredient) : Except Unit (Ingredient × List AdminMail) :=
  if req.has_perm_add_ingredient then
    let i1 := { i with status := SubmissionStatus.accepted }
    let i2 :=
      if truthyS i1.license_author then i1
      else { i1 with license_author := some ((req.host.splitOn ":").headD "") }
    Except.ok (i2, [])
  else
    let i1 :=
      if truthyS i.license_author then i
      else { i with license_author := some req.username }
    match mail_admins true delivery_ok [] ⟨req.username, i1.name⟩ with
    | Except.error e => Except.error e
    | Except.ok outbox => Except.ok (i1, outbox)

/-- Modelled from the spec: OFF_SEARCH_PRODUCT_FOUND (from
wger.utils.constants, outside the provided sources) is the status value
of the external product database meaning the product was found. -/
def OFF_SEARCH_PRODUCT_FOUND : Nat := 1

/-- A response of the external product database: a status field and a
nested product payload of abstract type. -/
structure OffResponse (P : Type) where
  status : Nat
  product : P

/-- Modelled from the spec: the dictionary returned by
extract_info_from_off (from wger.nutrition.off, outside the provided
sources) with the fields fetch_ingredient_from_off reads and passes to
the Ingredient constructor. -/
structure OffIngredientData where
  name : Option String
  common_name : Option String
  energy : Option Int
  protein : Option ℚ
  carbohydrates : Option ℚ
  fat : Option ℚ
deriving DecidableEq

/-- The Ingredient built from extracted external data (cls(**data)). -/
def ingredientFromOffData (d : OffIngredientData) : Ingredient :=
  { pk := 0
    uuid := 0
    name := d.name.getD ""
    energy := d.energy
    protein := d.protein
    carbohydrates := d.carbohydrates
    carbohydrates_sugar := none
    fat := d.fat
    fat_saturated := none
    fibres := none
    sodium := none
    code := none
    license_author := none
    status := SubmissionStatus.pending
    common_name := d.common_name }

/-- Outcome of fetch_ingredient_from_off: the returned value and the list
of records persisted during the call. -/
structure FetchOutcome where
  returned : Option Ingredient
  saved : List Ingredient
deriving DecidableEq

/-- Ingredient.fetch_ingredient_from_off: on a response whose status is
not OFF_SEARCH_PRODUCT_FOUND return None; otherwise run the extraction
step (extract_info_from_off together with the lang lookup, both inside
the try block, abstracted as the extract argument whose error value is
the caught KeyError) and return None on a missing-key fault; return None
when the extracted name or common_name is falsy; otherwise construct the
record, save it and return it.  The function is total: every branch
returns. -/
def fetch_ingredient_from_off {P : Type}
    (extract : P → Except Unit OffIngredientData)
    (response : OffResponse P) : FetchOutcome :=
  if response.status ≠ OFF_SEARCH_PRODUCT_FOUND then ⟨none, []⟩
  else
    match extract response.product with
    | Except.error _ => ⟨none, []⟩
    | Except.ok d =>
      if ¬ truthyS d.name then ⟨none, []⟩
      else if ¬ truthyS d.common_name then ⟨none, []⟩
      else
        let ing := ingredientFromOffData d
        ⟨some ing, [ing]⟩

/-- The attribute names that the loop in Ingredient.__eq__ iterates over,
in source order; creation_date is in the list although no Ingredient has
such an attribute. -/
inductive EqAttr
  | carbohydrates
  | carbohydrates_sugar
  | creation_date
  | energy
  | fat
  | fat_saturated
  | fibres
  | name
  | protein
  | sodium
deriving DecidableEq

/-- The list iterated by the loop in __eq__, in source order. -/
def eqAttrList : List EqAttr :=
  [EqAttr.carbohydrates, EqAttr.carbohydrates_sugar, EqAttr.creation_date,
   EqAttr.energy, EqAttr.fat, EqAttr.fat_saturated, EqAttr.fibres,
   EqAttr.name, EqAttr.protein, EqAttr.sodium]

/-- Python hasattr on an Ingredient for the attributes of the __eq__
loop: every listed attribute is a model field except creation_date, which
no Ingredient has. -/
def pyHasattr (_ : Ingredient) : EqAttr → Bool
  | EqAttr.creation_date => false
  | _ => true

/-- A dynamically typed attribute value, as getattr returns it. -/
inductive AttrValue
  | ofQ (v : Option ℚ)
  | ofI (v : Option Int)
  | ofS (v : String)
  | pyNone
deriving DecidableEq

/-- Python getattr(i, a, None) for the attributes of the __eq__ loop;
creation_date falls back to the None default. -/
def pyGetattr (i : Ingredient) : EqAttr → AttrValue
  | EqAttr.carbohydrates => AttrValue.ofQ i.carbohydrates
  | EqAttr.carbohydrates_sugar => AttrValue.ofQ i.carbohydrates_sugar
  | EqAttr.creation_date => AttrValue.pyNone
  | EqAttr.energy => AttrValue.ofI i.energy
  | EqAttr.fat => AttrValue.ofQ i.fat
  | EqAttr.fat_saturated => AttrValue.ofQ i.fat_saturated
  | EqAttr.fibres => AttrValue.ofQ i.fibres
  | EqAttr.name => AttrValue.ofS i.name
  | EqAttr.protein => AttrValue.ofQ i.protein
  | EqAttr.sodium => AttrValue.ofQ i.sodium

/-- The body of the __eq__ loop for two Ingredient operands: equal starts
True and is cleared whenever both sides have the attribute and the values
differ. -/
def Ingredient.valEq (a b : Ingredient) : Bool :=
  eqAttrList.all fun attr =>
    !(pyHasattr a attr && pyHasattr b attr) || (pyGetattr a attr == pyGetattr b attr)

/-- An arbitrary Python object handed to __eq__: either an Ingredient or
something of another class. -/
inductive PyObject
  | ingredient (i : Ingredient)
  | other (tag : Nat)

/-- Ingredient.__eq__: value comparison over the attribute list when the
operand is an Ingredient, False for every other operand. -/
def Ingredient.pyEq (a : Ingredient) : PyObject → Bool
  | PyObject.ingredient b => Ingredient.valEq a b
  | PyObject.other _ => false

/-- Ingredient.__hash__, hash(self.pk).  Modelled from CPython semantics:
the hash of a small non-negative integer is the integer itself. -/
def Ingredient.pyHash (i : Ingredient) : Nat := i.pk

/-- An HTTP response of the index view: a redirect or a rendered page. -/
inductive HttpResponse
  | redirect (url : String)
  | render (template : String)
deriving DecidableEq

/-- The part of the request the index view reads. -/
structure WebRequest where
  is_authenticated : Bool

/-- The index view of wger.core.views.misc: redirect authenticated users
to the dashboard URL and everyone else to the software features URL.
The URL resolver (django reverse) is framework code, abstracted as an
argument. -/
def index (reverse : String → String) (req : WebRequest) : HttpResponse :=
  if req.is_authenticated then HttpResponse.redirect (reverse "core:dashboard")
  else HttpResponse.redirect (reverse "software:features")

/-- Round a rational to an integer with ties to even, the default
rounding of Python Decimal.quantize (ROUND_HALF_EVEN). -/
def roundHalfEven (q : ℚ) : ℤ :=
  if q - ⌊q⌋ < 1/2 then ⌊q⌋
  else if 1/2 < q - ⌊q⌋ then ⌊q⌋ + 1
  else if ⌊q⌋ % 2 = 0 then ⌊q⌋ else ⌊q⌋ + 1

/-- Modelled from the spec: Decimal.quantize(TWOPLACES) with TWOPLACES =
0.01 (from wger.utils.constants, outside the provided sources): round to
exactly two decimal places, ties to even. -/
def quantizeTwoPlaces (q : ℚ) : ℚ := (roundHalfEven (q * 100) : ℚ) / 100

/-- Ingredient.energy_kilojoule: 0 when the energy field is falsy (absent
or 0), otherwise energy times 4.184 quantized to two decimal places.
The Python expression routes energy * 4.184 through a binary float before
Decimal conversion; the embedding computes it exactly, which agrees with
the float route on the 32-bit range of the energy IntegerField. -/
def Ingredient.energy_kilojoule (i : Ingredient) : ℚ :=
  if truthyI i.energy then
    quantizeTwoPlaces ((i.energy.getD 0 : ℚ) * (4184 / 1000))
  else 0

/-- Concrete record agreeing with sampleIngredientB on every attribute
compared by __eq__ while differing in pk, uuid and code. -/
def sampleIngredientA : Ingredient :=
  { pk := 1
    uuid := 11
    name := "Oats"
    energy := some 370
    protein := some 13
    carbohydrates := some 58
    carbohydrates_sugar := some 1
    fat := some 7
    fat_saturated := some 1
    fibres := some 10
    sodium := some (1/100)
    code := some "111"
    license_author := none
    status := SubmissionStatus.pending
    common_name := none }

/-- Companion of sampleIngredientA: same compared values, different
identity fields. -/
def sampleIngredientB : Ingredient :=
  { sampleIngredientA with pk := 2, uuid := 22, code := some "222" }

/-- Concrete request for the authorship claims: user bob, without the
nutrition.add_ingredient permission, from host example.com:8000. -/
def sampleRequest : AuthRequest :=
  { username := "bob", has_perm_add_ingredient := false, host := "example.com:8000" }

/-- Concrete record whose authorship string is already set to alice. -/
def sampleAuthoredRecord : Ingredient :=
  { mkRec none none none none with license_author := some "alice" }

/-- Concrete extracted data with both names usable, for the claims about
the barcode lookup. -/
def sampleOffData : OffIngredientData :=
  { name := some "Oats"
    common_name := some "Porridge"
    energy := some 370
    protein := some 13
    carbohydrates := some 58
    fat := some 7 }

/-!  Theorems.  -/

/-- Truthiness is irrelevant to each term of the computed energy: a falsy
value is either absent (getD gives 0) or 0, and both multiply to 0. -/
theorem truthy_term_eq (o : Option ℚ) (k : ℚ) :
    (if truthyQ o then o.getD 0 * k else 0) = o.getD 0 * k := by
  cases o with
  | none => simp [truthyQ]
  | some v =>
    by_cases h : v = 0
    · simp [truthyQ, h]
    · simp [truthyQ, h]

/-- Closed form of the computed energy: 4 kcal per gram of protein and
carbohydrates, 9 per gram of fat, missing values contributing 0. -/
theorem energy_calculated_eq (i : Ingredient) :
    i.energy_calculated =
      i.protein.getD 0 * 4 + i.carbohydrates.getD 0 * 4 + i.fat.getD 0 * 9 := by
  unfold Ingredient.energy_calculated
  rw [truthy_term_eq, truthy_term_eq, truthy_term_eq]
  rfl

/-- Characterisation of a passing clean call: the energy field is falsy,
or the computed energy lies strictly inside the tolerance band. -/
theorem cleanPasses_true_iff (i : Ingredient) :
    cleanPasses i = true ↔
      (truthyI i.energy = false ∨
        ((i.energy.getD 0 : ℚ) * (1 + (ENERGY_APPROXIMATION : ℚ) / 100)
            > i.energy_calculated ∧
         i.energy_calculated
            > (i.energy.getD 0 : ℚ) * (1 - (ENERGY_APPROXIMATION : ℚ) / 100))) := by
  unfold cleanPasses Ingredient.clean
  by_cases h1 : truthyI i.energy
  · by_cases h2 :
      ((i.energy.getD 0 : ℚ) * (1 + (ENERGY_APPROXIMATION : ℚ) / 100)
          > i.energy_calculated ∧
       i.energy_calculated
          > (i.energy.getD 0 : ℚ) * (1 - (ENERGY_APPROXIMATION : ℚ) / 100))
    · simp [h1, h2]
    · simp [h1, h2]
  · simp [h1]

/-- C3: on energy=100, protein=5, carbohydrates=10, fat=2 the computed
energy is 78 kcal and clean raises the validation error carrying 100, 78
and 15; on energy=80 with the same macronutrients clean passes. -/
theorem clean_concrete_examples :
    (mkRec (some 100) (some 5) (some 10) (some 2)).energy_calculated = 78 ∧
    Ingredient.clean (mkRec (some 100) (some 5) (some 10) (some 2)) =
      Except.error ⟨100, 78, 15⟩ ∧
    Ingredient.clean (mkRec (some 80) (some 5) (some 10) (some 2)) =
      Except.ok () := by
  have hcalc :
      (mkRec (some 100) (some 5) (some 10) (some 2)).energy_calculated = 78 := by
    rw [energy_calculated_eq]; norm_num [mkRec]
  have hcalc80 :
      (mkRec (some 80) (some 5) (some 10) (some 2)).energy_calculated = 78 := by
    rw [energy_calculated_eq]; norm_num [mkRec]
  refine ⟨hcalc, ?_, ?_⟩
  · unfold Ingredient.clean
    rw [hcalc]
    norm_num [mkRec, truthyI, ENERGY_APPROXIMATION]
  · unfold Ingredient.clean
    rw [hcalc80]
    norm_num [mkRec, truthyI, ENERGY_APPROXIMATION]

/-- C2 as stated is false on the code: a record declaring 0 energy with a
strictly positive protein of 5 g passes clean, because a zero energy is
falsy and the whole comparison is skipped. -/
theorem clean_zero_energy_claim_counterexample :
    Ingredient.clean (mkRec (some 0) (some 5) none none) = Except.ok () ∧
    (0 : ℚ) < 5 := by
  constructor
  · unfold Ingredient.clean
    simp [mkRec, truthyI]
  · norm_num

/-- C2 amended: for every record whose declared energy equals 0, clean
passes (raises no error) whatever the macronutrients are: a zero energy
is falsy in Python, so the energy comparison is skipped entirely. -/
theorem clean_zero_energy_passes (i : Ingredient) (h : i.energy = some 0) :
    Ingredient.clean i = Except.ok () := by
  unfold Ingredient.clean
  rw [h]
  simp [truthyI]

/-- Witness for clean_zero_energy_passes at a record with maximal
macronutrients and zero energy. -/
theorem clean_zero_energy_passes_witness :
    (mkRec (some 0) (some 100) (some 100) (some 100)).energy = some 0 ∧
    Ingredient.clean (mkRec (some 0) (some 100) (some 100) (some 100)) =
      Except.ok () :=
  ⟨rfl, clean_zero_energy_passes _ rfl⟩

/-- C1 as stated is false on the code: with energy 0 and protein 1 (all
values non-negative) the energy is present and the claimed band condition
fails, so the claim predicts a validation error, yet clean passes,
because a zero energy is falsy and the check is skipped. -/
theorem clean_band_claim_counterexample :
    cleanPasses (mkRec (some 0) (some 1) (some 0) none) = true ∧
    ((some 0 : Option Int) ≠ none) ∧
    ¬ ((85/100 : ℚ) * 0 < 4 * 1 + 4 * 0 + 9 * 0 ∧
       4 * 1 + 4 * 0 + 9 * 0 < (115/100 : ℚ) * 0) := by
  refine ⟨?_, by simp, by norm_num⟩
  rw [cleanPasses_true_iff]
  left
  simp [mkRec, truthyI]

/-- C1 amended: for non-negative protein, carbohydrates, fat and energy,
clean passes iff the energy is absent or zero (both falsy, the check is
skipped), or the strict band 0.85 e < 4 p + 4 c + 9 f < 1.15 e holds;
missing macronutrients contribute 0 to the sum. -/
theorem clean_passes_iff_amended (e : Option Int) (p c f : Option ℚ)
    (hp : 0 ≤ p.getD 0) (hc : 0 ≤ c.getD 0) (hf : 0 ≤ f.getD 0)
    (he : 0 ≤ (e.getD 0 : ℤ)) :
    cleanPasses (mkRec e p c f) = true ↔
      (e = none ∨ e = some 0 ∨
        ((85/100 : ℚ) * ((e.getD 0 : ℤ) : ℚ)
            < 4 * p.getD 0 + 4 * c.getD 0 + 9 * f.getD 0 ∧
         4 * p.getD 0 + 4 * c.getD 0 + 9 * f.getD 0
            < (115/100 : ℚ) * ((e.getD 0 : ℤ) : ℚ))) := by
  rw [cleanPasses_true_iff]
  have hfield : (mkRec e p c f).energy = e := rfl
  have hcalc : (mkRec e p c f).energy_calculated
      = 4 * p.getD 0 + 4 * c.getD 0 + 9 * f.getD 0 := by
    rw [energy_calculated_eq]
    show p.getD 0 * 4 + c.getD 0 * 4 + f.getD 0 * 9 = _
    ring
  rw [hfield, hcalc]
  cases e with
  | none => simp [truthyI]
  | some ev =>
    by_cases hev : ev = 0
    · subst hev
      simp [truthyI]
    · have h1 : truthyI (some ev) = true := by simp [truthyI, hev]
      have hnone : ((some ev : Option Int) = none) ↔ False := by simp
      have hzero : ((some ev : Option Int) = some 0) ↔ False := by simp [hev]
      rw [h1, hnone, hzero]
      norm_num [ENERGY_APPROXIMATION]
      constructor
      · rintro ⟨ha, hb⟩
        exact ⟨by linarith, by linarith⟩
      · rintro ⟨ha, hb⟩
        exact ⟨by linarith, by linarith⟩

/-- Witness for clean_passes_iff_amended at energy 80, protein 5,
carbohydrates 10, fat 2: the computed 78 lies in the band (68, 92). -/
theorem clean_passes_iff_amended_witness :
    (0 : ℚ) ≤ (some (5 : ℚ)).getD 0 ∧
    (0 : ℤ) ≤ ((some 80 : Option Int).getD 0 : ℤ) ∧
    cleanPasses (mkRec (some 80) (some 5) (some 10) (some 2)) = true := by
  have h := clean_passes_iff_amended (some 80) (some 5) (some 10) (some 2)
    (by norm_num) (by norm_num) (by norm_num) (by norm_num)
  refine ⟨by norm_num, by norm_num, ?_⟩
  rw [h]
  right; right
  norm_num

/-- C4: save delegates persistence to the underlying storage and then
deletes the cache entry at the key derived from the record id, so a cache
read of that key immediately after save returns a miss. -/
theorem save_invalidates_cache (S V : Type) (superSave : S → Ingredient → S)
    (st : SysState S V) (i : Ingredient) :
    (Ingredient.save superSave st i).storage = superSave st.storage i ∧
    cacheGet (Ingredient.save superSave st i).cache (get_ingredient_key i.pk)
      = none := by
  constructor
  · rfl
  · unfold Ingredient.save cacheGet cacheDelete
    simp

/-- C5 as stated is false on the code: for a principal without the
permission the authorship is only filled in when it is empty; on a record
already authored by alice, set_author keeps alice instead of setting the
requesting user bob. -/
theorem set_author_claim_counterexample :
    sampleRequest.has_perm_add_ingredient = false ∧
    Ingredient.set_author sampleRequest true sampleAuthoredRecord =
      Except.ok (sampleAuthoredRecord, [⟨"bob", "ingredient"⟩]) ∧
    sampleAuthoredRecord.license_author = some "alice" ∧
    sampleRequest.username ≠ "alice" := by
  refine ⟨rfl, ?_, rfl, by decide⟩
  unfold Ingredient.set_author
  simp [sampleRequest, sampleAuthoredRecord, mkRec, truthyS, mail_admins]

/-- C5 amended: with the management permission the status is set to
accepted and an absent authorship is filled with the request host, port
stripped; without it the status is left unchanged (never set to
accepted), an absent authorship is filled with the requesting user name,
an existing one is kept, and exactly one admin notification is attempted,
the call returning ok for every delivery outcome since fail_silently is
set. -/
theorem set_author_behaviour (req : AuthRequest) (delivery_ok : Bool)
    (i : Ingredient) :
    (req.has_perm_add_ingredient = true →
      (truthyS i.license_author = true →
        Ingredient.set_author req delivery_ok i =
          Except.ok ({ i with status := SubmissionStatus.accepted }, [])) ∧
      (truthyS i.license_author = false →
        Ingredient.set_author req delivery_ok i =
          Except.ok
            ({ i with
                status := SubmissionStatus.accepted
                license_author := some ((req.host.splitOn ":").headD "") },
             []))) ∧
    (req.has_perm_add_ingredient = false →
      (truthyS i.license_author = true →
        Ingredient.set_author req delivery_ok i =
          Except.ok (i, [⟨req.username, i.name⟩])) ∧
      (truthyS i.license_author = false →
        Ingredient.set_author req delivery_ok i =
          Except.ok ({ i with license_author := some req.username },
                     [⟨req.username, i.name⟩]))) := by
  constructor
  · intro hperm
    constructor
    · intro ht
      unfold Ingredient.set_author
      simp [hperm, ht]
    · intro ht
      unfold Ingredient.set_author
      simp [hperm, ht]
  · intro hperm
    constructor
    · intro ht
      unfold Ingredient.set_author
      simp [hperm, ht, mail_admins]
    · intro ht
      unfold Ingredient.set_author
      simp [hperm, ht, mail_admins]

/-- Witness for set_author_behaviour: user bob without the permission,
record without authorship; the record is authored bob, the status stays
pending, one mail is attempted and the call returns ok even though the
delivery outcome argument is failure. -/
theorem set_author_behaviour_witness :
    sampleRequest.has_perm_add_ingredient = false ∧
    truthyS (mkRec none none none none).license_author = false ∧
    Ingredient.set_author sampleRequest false (mkRec none none none none) =
      Except.ok ({ mkRec none none none none with license_author := some "bob" },
                 [⟨"bob", "ingredient"⟩]) := by
  refine ⟨rfl, rfl, ?_⟩
  have h := ((set_author_behaviour sampleRequest false
    (mkRec none none none none)).2 rfl).2 rfl
  rw [h]
  rfl

/-- C6: when the response status differs from the found value, the
barcode lookup returns None and persists no record; the embedded function
is total, so no exception escapes. -/
theorem fetch_off_not_found (P : Type)
    (extract : P → Except Unit OffIngredientData) (response : OffResponse P)
    (h : response.status ≠ OFF_SEARCH_PRODUCT_FOUND) :
    fetch_ingredient_from_off extract response = ⟨none, []⟩ := by
  unfold fetch_ingredient_from_off
  simp [h]

/-- Witness for fetch_off_not_found at status 0 with an extraction that
would fault: nothing is returned or saved. -/
theorem fetch_off_not_found_witness :
    (OffResponse.mk 0 () : OffResponse Unit).status ≠ OFF_SEARCH_PRODUCT_FOUND ∧
    fetch_ingredient_from_off (fun _ : Unit => Except.error ())
      (OffResponse.mk 0 ()) = ⟨none, []⟩ :=
  ⟨by decide, fetch_off_not_found Unit _ _ (by decide)⟩

/-- C7: on a found status, a missing-key fault during extraction or a
falsy extracted name or common name yields None with nothing persisted
and no exception (the fault is caught, every branch returns); only when
extraction succeeds with both names truthy is the constructed record
saved and returned. -/
theorem fetch_off_extraction (P : Type)
    (extract : P → Except Unit OffIngredientData) (response : OffResponse P)
    (h : response.status = OFF_SEARCH_PRODUCT_FOUND) :
    (extract response.product = Except.error () →
      fetch_ingredient_from_off extract response = ⟨none, []⟩) ∧
    (∀ d, extract response.product = Except.ok d → truthyS d.name = false →
      fetch_ingredient_from_off extract response = ⟨none, []⟩) ∧
    (∀ d, extract response.product = Except.ok d →
      truthyS d.common_name = false →
      fetch_ingredient_from_off extract response = ⟨none, []⟩) ∧
    (∀ d, extract response.product = Except.ok d → truthyS d.name = true →
      truthyS d.common_name = true →
      fetch_ingredient_from_off extract response =
        ⟨some (ingredientFromOffData d), [ingredientFromOffData d]⟩) := by
  unfold fetch_ingredient_from_off
  refine ⟨?_, ?_, ?_, ?_⟩
  · intro he
    rw [he]
    simp [h]
  · intro d he ht
    rw [he]
    simp [h, ht]
  · intro d he ht
    rw [he]
    by_cases hn : truthyS d.name <;> simp [h, ht, hn]
  · intro d he h1 h2
    rw [he]
    simp [h, h1, h2]

/-- Witness for fetch_off_extraction: found status, extraction yields
sampleOffData whose two names are usable, so the built record is saved
and returned. -/
theorem fetch_off_extraction_witness :
    (OffResponse.mk 1 () : OffResponse Unit).status = OFF_SEARCH_PRODUCT_FOUND ∧
    truthyS sampleOffData.name = true ∧
    fetch_ingredient_from_off (fun _ : Unit => Except.ok sampleOffData)
      (OffResponse.mk 1 ()) =
      ⟨some (ingredientFromOffData sampleOffData),
       [ingredientFromOffData sampleOffData]⟩ := by
  refine ⟨rfl, rfl, ?_⟩
  exact (fetch_off_extraction Unit (fun _ => Except.ok sampleOffData)
    (OffResponse.mk 1 ()) rfl).2.2.2 sampleOffData rfl rfl rfl

/-- C8: equality is value based over the nine attributes the loop
actually compares, so records agreeing on them are equal whatever their
pk, uuid and code; any non-Ingredient operand compares False; no
Ingredient has a creation_date attribute, so that list entry never
influences the outcome; and the sample pair is value equal with different
pks, uuids, codes and hashes, since the hash is hash(pk). -/
theorem ingredient_eq_value_based :
    (∀ a b : Ingredient,
      a.carbohydrates = b.carbohydrates →
      a.carbohydrates_sugar = b.carbohydrates_sugar →
      a.energy = b.energy →
      a.fat = b.fat →
      a.fat_saturated = b.fat_saturated →
      a.fibres = b.fibres →
      a.name = b.name →
      a.protein = b.protein →
      a.sodium = b.sodium →
      Ingredient.pyEq a (PyObject.ingredient b) = true) ∧
    (∀ (a : Ingredient) (t : Nat),
      Ingredient.pyEq a (PyObject.other t) = false) ∧
    (∀ a : Ingredient, pyHasattr a EqAttr.creation_date = false) ∧
    (Ingredient.pyEq sampleIngredientA (PyObject.ingredient sampleIngredientB)
        = true ∧
     sampleIngredientA.pk ≠ sampleIngredientB.pk ∧
     sampleIngredientA.uuid ≠ sampleIngredientB.uuid ∧
     sampleIngredientA.code ≠ sampleIngredientB.code ∧
     sampleIngredientA.pyHash ≠ sampleIngredientB.pyHash) := by
  refine ⟨?_, ?_, ?_, ?_, ?_, ?_, ?_, ?_⟩
  · intro a b h1 h2 h3 h4 h5 h6 h7 h8 h9
    simp [Ingredient.pyEq, Ingredient.valEq, eqAttrList, pyHasattr, pyGetattr,
      h1, h2, h3, h4, h5, h6, h7, h8, h9]
  · intro a t
    rfl
  · intro a
    rfl
  · simp [Ingredient.pyEq, Ingredient.valEq, eqAttrList, pyHasattr, pyGetattr,
      sampleIngredientB]
  · decide
  · decide
  · decide
  · decide

/-- Witness for ingredient_eq_value_based: its universal part applied to
the sample pair, whose nine compared attributes agree definitionally. -/
theorem ingredient_eq_value_based_witness :
    sampleIngredientA.protein = sampleIngredientB.protein ∧
    Ingredient.pyEq sampleIngredientA (PyObject.ingredient sampleIngredientB)
      = true :=
  ⟨rfl, ingredient_eq_value_based.1 sampleIngredientA sampleIngredientB
    rfl rfl rfl rfl rfl rfl rfl rfl rfl⟩

/-- C9: the index view always returns a redirect, to the dashboard URL
for an authenticated request and to the software features URL otherwise,
and never renders a page. -/
theorem index_always_redirects (reverse : String → String)
    (req : WebRequest) :
    (req.is_authenticated = true →
      index reverse req = HttpResponse.redirect (reverse "core:dashboard")) ∧
    (req.is_authenticated = false →
      index reverse req = HttpResponse.redirect (reverse "software:features")) ∧
    (∀ t, index reverse req ≠ HttpResponse.render t) := by
  unfold index
  by_cases h : req.is_authenticated <;> simp [h]

/-- Witness for index_always_redirects on an authenticated request with
the identity URL resolver. -/
theorem index_always_redirects_witness :
    (WebRequest.mk true).is_authenticated = true ∧
    index id (WebRequest.mk true) = HttpResponse.redirect "core:dashboard" :=
  ⟨rfl, (index_always_redirects id (WebRequest.mk true)).1 rfl⟩

/-- Rounding ties to even never moves a rational by more than a half. -/
theorem roundHalfEven_sub_abs (q : ℚ) :
    |(roundHalfEven q : ℚ) - q| ≤ 1/2 := by
  have h1 : (⌊q⌋ : ℚ) ≤ q := Int.floor_le q
  have h2 : q < ⌊q⌋ + 1 := Int.lt_floor_add_one q
  unfold roundHalfEven
  by_cases hlt : q - ⌊q⌋ < 1/2
  · rw [if_pos hlt, abs_le]
    constructor <;> push_cast <;> linarith
  · rw [if_neg hlt]
    by_cases hgt : 1/2 < q - ⌊q⌋
    · rw [if_pos hgt, abs_le]
      constructor <;> push_cast <;> linarith
    · rw [if_neg hgt]
      by_cases hpar : ⌊q⌋ % 2 = 0
      · rw [if_pos hpar, abs_le]
        constructor <;> push_cast <;> linarith
      · rw [if_neg hpar, abs_le]
        constructor <;> push_cast <;> linarith

/-- Quantizing to two places lands on a multiple of one hundredth and
moves the value by at most half of it. -/
theorem quantizeTwoPlaces_spec (q : ℚ) :
    (∃ n : ℤ, quantizeTwoPlaces q = (n : ℚ) / 100) ∧
    |quantizeTwoPlaces q - q| ≤ 1/200 := by
  constructor
  · exact ⟨roundHalfEven (q * 100), rfl⟩
  · have h := roundHalfEven_sub_abs (q * 100)
    have heq : quantizeTwoPlaces q - q
        = ((roundHalfEven (q * 100) : ℚ) - q * 100) / 100 := by
      unfold quantizeTwoPlaces
      ring
    rw [heq, abs_div]
    rw [show |(100 : ℚ)| = 100 from by norm_num]
    linarith

/-- C10: energy_kilojoule returns 0 when the energy is absent or 0, and
otherwise the energy times 4.184 rounded to exactly two decimal places
(so within 1/200 of the product); the function is total, raising
nothing.  The range bound matches the 32-bit IntegerField, on which the
exact computation agrees with the float detour of the Python
expression. -/
theorem energy_kilojoule_spec (i : Ingredient) :
    ((i.energy = none ∨ i.energy = some 0) → i.energy_kilojoule = 0) ∧
    (∀ e : ℤ, i.energy = some e → e ≠ 0 → e.natAbs ≤ 2147483647 →
      i.energy_kilojoule = quantizeTwoPlaces ((e : ℚ) * (4184 / 1000)) ∧
      (∃ n : ℤ, i.energy_kilojoule = (n : ℚ) / 100) ∧
      |i.energy_kilojoule - (e : ℚ) * (4184 / 1000)| ≤ 1/200) := by
  constructor
  · rintro (h | h) <;> simp [Ingredient.energy_kilojoule, h, truthyI]
  · intro e he hne _
    have heq : i.energy_kilojoule = quantizeTwoPlaces ((e : ℚ) * (4184 / 1000)) := by
      unfold Ingredient.energy_kilojoule
      rw [he]
      simp [truthyI, hne]
    refine ⟨heq, ?_, ?_⟩
    · rw [heq]
      exact (quantizeTwoPlaces_spec ((e : ℚ) * (4184 / 1000))).1
    · rw [heq]
      exact (quantizeTwoPlaces_spec ((e : ℚ) * (4184 / 1000))).2

/-- Witness for energy_kilojoule_spec at energy 239: the result 999.98 is
a multiple of a hundredth and within a half hundredth of 999.976. -/
theorem energy_kilojoule_spec_witness :
    (mkRec (some 239) none none none).energy = some 239 ∧
    (239 : ℤ) ≠ 0 ∧
    |(mkRec (some 239) none none none).energy_kilojoule
        - (239 : ℚ) * (4184 / 1000)| ≤ 1/200 :=
  ⟨rfl, by decide,
    ((energy_kilojoule_spec (mkRec (some 239) none none none)).2 239 rfl
      (by decide) (by decide)).2.2⟩

end Wger
